import Mathlib

set_option autoImplicit false

namespace AirflowSpec

/-!
Verification of the JDBC connection resolver and submission-argument builder
of the Spark provider, of the Vertex AI model-service operators, and of the
AWS Glue job-run details link template.

The Spark JDBC hook and the Glue link class are exercised here only through
their unit tests (`test_spark_jdbc.py`, `test_glue.py`); their bodies are
modelled from the specification's description (sections 3, 4.1, 4.2),
constrained to agree with the behaviour those unit tests pin down.
The Vertex AI operators are translated directly from
`google/cloud/operators/vertex_ai/model_service.py`.
-/

/-- The validation error raised during JDBC connection handling.
The three constructors stand for the three `ValueError` messages of the
specification, in order: "host should not contain a slash character",
"schema should not contain a question-mark character", and
"extra conn_prefix should not contain a hash character". -/
inductive InvalidConfiguration where
  | hostContainsSlash
  | schemaContainsQuestionMark
  | connPrefixContainsHash
  deriving DecidableEq, Repr

/-- Python's `c in s` membership test for a single character in a string. -/
def containsChar (s : String) (c : Char) : Bool :=
  s.data.contains c

/-- Python's `s.removesuffix("://")`: drop one trailing `://` marker if present,
otherwise return the string unchanged. -/
def stripProtocolSuffix (s : String) : String :=
  match s.data.reverse with
  | '/' :: '/' :: ':' :: rest => String.mk rest.reverse
  | _ => s

/-- The stored connection fields the resolver reads: host, port, schema,
login, password, and the `conn_prefix` key of the free-form `extra` map
(spec section 3, ConnectionDescriptor). -/
structure JdbcConnectionInput where
  host : String
  port : Nat
  schema : String
  login : String
  password : String
  connPrefix : String
  deriving DecidableEq, Repr

/-- The mapping the resolver returns, with keys `url`, `schema`,
`conn_prefix`, `user`, `password` (spec sections 4.1 and 6). -/
structure ResolvedJdbcConnection where
  url : String
  schema : String
  connPrefix : String
  user : String
  password : String
  deriving DecidableEq, Repr

/-- Modelled from the spec: `SparkJDBCHook._resolve_jdbc_connection` is not part
of the excerpt (only `test_spark_jdbc.py` is), so this follows section 4.1:
fail if `host` contains a slash, then fail if `schema` contains a question
mark, else return the mapping with `url = "host:port"`.  The `conn_prefix`
hash check of section 4.1 is *not* performed here: the unit tests
(`test_invalid_extra_conn_prefix`) show it runs during submission, inside the
argument builder, and hook construction succeeds. -/
def resolve_jdbc_connection (conn : JdbcConnectionInput) :
    Except InvalidConfiguration ResolvedJdbcConnection :=
  if containsChar conn.host '/' then
    Except.error InvalidConfiguration.hostContainsSlash
  else if containsChar conn.schema '?' then
    Except.error InvalidConfiguration.schemaContainsQuestionMark
  else
    Except.ok
      { url := conn.host ++ ":" ++ toString conn.port
        schema := conn.schema
        connPrefix := conn.connPrefix
        user := conn.login
        password := conn.password }

/-- The job's declared parameters (spec section 3, SubmissionConfig).
`lower_bound` and `upper_bound` are numeric fields serialized as decimal
strings (spec section 4.2); the partition triple is optional. -/
structure SubmissionConfig where
  cmd_type : String
  jdbc_table : String
  jdbc_driver : String
  metastore_table : String
  jdbc_truncate : Bool
  save_mode : String
  save_format : String
  batch_size : Nat
  fetch_size : Nat
  num_partitions : Nat
  partition_column : Option String
  lower_bound : Option Nat
  upper_bound : Option Nat
  create_table_column_types : String
  deriving DecidableEq, Repr

/-- Modelled from the spec: `SparkJDBCHook._build_jdbc_application_arguments`
is not part of the excerpt, so this follows section 4.2: first the
`conn_prefix` check (strip a trailing `://`, fail on a hash character —
placed here rather than in the resolver because `test_invalid_extra_conn_prefix`
raises only at submission time), then the fixed flag/value sequence, with the
partition triple emitted only when all three of its fields are present and
`-createTableColumnTypes` only when the override string is non-empty. -/
def build_jdbc_application_arguments (conn : ResolvedJdbcConnection)
    (cfg : SubmissionConfig) : Except InvalidConfiguration (List String) :=
  if containsChar (stripProtocolSuffix conn.connPrefix) '#' then
    Except.error InvalidConfiguration.connPrefixContainsHash
  else
    Except.ok
      (["-cmdType", cfg.cmd_type,
        "-url", conn.connPrefix ++ conn.url ++ "/" ++ conn.schema,
        "-user", conn.user,
        "-password", conn.password,
        "-metastoreTable", cfg.metastore_table,
        "-jdbcTable", cfg.jdbc_table,
        "-jdbcDriver", cfg.jdbc_driver,
        "-batchsize", toString cfg.batch_size,
        "-fetchsize", toString cfg.fetch_size,
        "-numPartitions", toString cfg.num_partitions]
      ++ (match cfg.partition_column, cfg.lower_bound, cfg.upper_bound with
          | some pc, some lb, some ub =>
              ["-partitionColumn", pc,
               "-lowerBound", toString lb,
               "-upperBound", toString ub]
          | _, _, _ => [])
      ++ ["-saveMode", cfg.save_mode,
          "-saveFormat", cfg.save_format]
      ++ (if cfg.create_table_column_types = "" then []
          else ["-createTableColumnTypes", cfg.create_table_column_types]))

/-- Modelled from the spec: the hook holds the connection resolved at
construction time together with the submission parameters. -/
structure SparkJDBCHook where
  jdbc_connection : ResolvedJdbcConnection
  config : SubmissionConfig
  deriving DecidableEq, Repr

/-- Modelled from the spec: hook construction resolves (and so validates) the
connection; `test_invalid_host` and `test_invalid_schema` show the host and
schema failures are raised here. -/
def SparkJDBCHook.init (conn : JdbcConnectionInput) (cfg : SubmissionConfig) :
    Except InvalidConfiguration SparkJDBCHook :=
  (resolve_jdbc_connection conn).map
    (fun r => { jdbc_connection := r, config := cfg })

/-- Modelled from the spec: `submit_jdbc_job` serializes the arguments from the
stored resolved connection and configuration before handing them to the
external submission binary (out of scope). -/
def SparkJDBCHook.submit_jdbc_job (h : SparkJDBCHook) :
    Except InvalidConfiguration (List String) :=
  build_jdbc_application_arguments h.jdbc_connection h.config

/-- The `jdbc-default` connection fixture of `test_spark_jdbc.py`. -/
def jdbcDefaultConnection : JdbcConnectionInput :=
  { host := "localhost"
    port := 5432
    schema := "default"
    login := "user"
    password := "supersecret"
    connPrefix := "jdbc:postgresql://" }

/-- The full `_config` fixture of `test_spark_jdbc.py` (spec section 8.5). -/
def fullConfig : SubmissionConfig :=
  { cmd_type := "spark_to_jdbc"
    jdbc_table := "tableMcTableFace"
    jdbc_driver := "org.postgresql.Driver"
    metastore_table := "hiveMcHiveFace"
    jdbc_truncate := false
    save_mode := "append"
    save_format := "parquet"
    batch_size := 100
    fetch_size := 200
    num_partitions := 10
    partition_column := some "columnMcColumnFace"
    lower_bound := some 10
    upper_bound := some 20
    create_table_column_types :=
      "columnMcColumnFace INTEGER(100), name CHAR(64),comments VARCHAR(1024)" }

/-- C1: for the full SubmissionConfig of section 8.5 combined with the resolved
`jdbc-default` connection, the argument builder produces exactly the 30-token
flag/value sequence of section 4.2, in that order, with the `-url` value
composed as conn_prefix + host + colon + port + slash + schema. -/
theorem build_full_submission_tokens :
    (resolve_jdbc_connection jdbcDefaultConnection).bind
        (fun c => build_jdbc_application_arguments c fullConfig) =
      Except.ok
        ["-cmdType", "spark_to_jdbc",
         "-url", "jdbc:postgresql://localhost:5432/default",
         "-user", "user",
         "-password", "supersecret",
         "-metastoreTable", "hiveMcHiveFace",
         "-jdbcTable", "tableMcTableFace",
         "-jdbcDriver", "org.postgresql.Driver",
         "-batchsize", "100",
         "-fetchsize", "200",
         "-numPartitions", "10",
         "-partitionColumn", "columnMcColumnFace",
         "-lowerBound", "10",
         "-upperBound", "20",
         "-saveMode", "append",
         "-saveFormat", "parquet",
         "-createTableColumnTypes",
         "columnMcColumnFace INTEGER(100), name CHAR(64),comments VARCHAR(1024)"] := by
  rfl

/-- C2: for the `jdbc-default` connection the resolver returns exactly the
mapping `url = "localhost:5432"`, `schema = "default"`,
`conn_prefix = "jdbc:postgresql://"`, `user = "user"`,
`password = "supersecret"`; in particular `url` is host:port, without the
conn_prefix or the schema. -/
theorem resolve_default_connection :
    resolve_jdbc_connection jdbcDefaultConnection =
      Except.ok
        { url := "localhost:5432"
          schema := "default"
          connPrefix := "jdbc:postgresql://"
          user := "user"
          password := "supersecret" } := by
  rfl

/-- The `jdbc-invalid-host` connection fixture of `test_spark_jdbc.py`. -/
def jdbcInvalidHostConnection : JdbcConnectionInput :=
  { jdbcDefaultConnection with host := "localhost/test" }

/-- The `jdbc-invalid-schema` connection fixture of `test_spark_jdbc.py`. -/
def jdbcInvalidSchemaConnection : JdbcConnectionInput :=
  { jdbcDefaultConnection with schema := "default?test=" }

/-- A connection whose host and schema are both malformed: used to decide
which of the two errors resolution reports. -/
def doublyInvalidConnection : JdbcConnectionInput :=
  { jdbcDefaultConnection with host := "localhost/test", schema := "default?test=" }

/-- The `jdbc-invalid-extra-conn-prefix` connection fixture of
`test_spark_jdbc.py`. -/
def jdbcInvalidPrefixConnection : JdbcConnectionInput :=
  { jdbcDefaultConnection with
      connPrefix := "jdbc:mysql://some_host:8085/test?some_query_param=true#" }

/-- C3: for every connection whose host contains a slash, resolution fails
with the host-validation error. -/
theorem resolve_rejects_slash_host (conn : JdbcConnectionInput)
    (h : containsChar conn.host '/' = true) :
    resolve_jdbc_connection conn =
      Except.error InvalidConfiguration.hostContainsSlash := by
  simp [resolve_jdbc_connection, h]

/-- Witness for C3 at the `jdbc-invalid-host` fixture. -/
theorem resolve_rejects_slash_host_witness :
    containsChar jdbcInvalidHostConnection.host '/' = true ∧
      resolve_jdbc_connection jdbcInvalidHostConnection =
        Except.error InvalidConfiguration.hostContainsSlash :=
  ⟨by decide, resolve_rejects_slash_host jdbcInvalidHostConnection (by decide)⟩

/-- Counterexample to C4 as stated: `doublyInvalidConnection` has a question
mark in its schema, yet resolution reports the host error (the host check runs
first, spec section 4.1 "executed in this order"), not the schema error. -/
theorem resolve_schema_error_counterexample :
    containsChar doublyInvalidConnection.schema '?' = true ∧
      resolve_jdbc_connection doublyInvalidConnection =
        Except.error InvalidConfiguration.hostContainsSlash ∧
      InvalidConfiguration.hostContainsSlash ≠
        InvalidConfiguration.schemaContainsQuestionMark :=
  ⟨by decide, by rfl, by decide⟩

/-- C4 amended: for every connection whose host contains no slash and whose
schema contains a question mark, resolution fails with the schema-validation
error. -/
theorem resolve_rejects_question_schema (conn : JdbcConnectionInput)
    (hhost : containsChar conn.host '/' = false)
    (h : containsChar conn.schema '?' = true) :
    resolve_jdbc_connection conn =
      Except.error InvalidConfiguration.schemaContainsQuestionMark := by
  simp [resolve_jdbc_connection, hhost, h]

/-- Witness for the amended C4 at the `jdbc-invalid-schema` fixture. -/
theorem resolve_rejects_question_schema_witness :
    containsChar jdbcInvalidSchemaConnection.host '/' = false ∧
      containsChar jdbcInvalidSchemaConnection.schema '?' = true ∧
      resolve_jdbc_connection jdbcInvalidSchemaConnection =
        Except.error InvalidConfiguration.schemaContainsQuestionMark :=
  ⟨by decide, by decide,
    resolve_rejects_question_schema jdbcInvalidSchemaConnection (by decide) (by decide)⟩

/-- Counterexample to C5 as stated: the `jdbc-invalid-extra-conn-prefix`
fixture has a hash in its stripped conn_prefix, yet hook construction
*succeeds*, returning a hook that carries the malformed prefix — the failure
is not raised at construction time and the descriptor is built in the
invalid state (`test_invalid_extra_conn_prefix` constructs the hook and only
`submit_jdbc_job` raises). -/
theorem conn_prefix_not_checked_at_construction :
    containsChar (stripProtocolSuffix jdbcInvalidPrefixConnection.connPrefix) '#' = true ∧
      SparkJDBCHook.init jdbcInvalidPrefixConnection fullConfig =
        Except.ok
          { jdbc_connection :=
              { url := "localhost:5432"
                schema := "default"
                connPrefix := "jdbc:mysql://some_host:8085/test?some_query_param=true#"
                user := "user"
                password := "supersecret" }
            config := fullConfig } :=
  ⟨by decide, by rfl⟩

/-- C5 amended: for every connection whose stripped conn_prefix contains a
hash (and whose host and schema pass their own checks), hook construction
succeeds, and the conn_prefix failure is raised during the submission attempt,
by the argument builder. -/
theorem conn_prefix_checked_at_submission (conn : JdbcConnectionInput)
    (cfg : SubmissionConfig)
    (hp : containsChar (stripProtocolSuffix conn.connPrefix) '#' = true)
    (hh : containsChar conn.host '/' = false)
    (hs : containsChar conn.schema '?' = false) :
    ∃ h : SparkJDBCHook,
      SparkJDBCHook.init conn cfg = Except.ok h ∧
        h.submit_jdbc_job = Except.error InvalidConfiguration.connPrefixContainsHash := by
  refine ⟨{ jdbc_connection :=
              { url := conn.host ++ ":" ++ toString conn.port
                schema := conn.schema
                connPrefix := conn.connPrefix
                user := conn.login
                password := conn.password }
            config := cfg }, ?_, ?_⟩
  · simp [SparkJDBCHook.init, resolve_jdbc_connection, hh, hs, Except.map]
  · simp [SparkJDBCHook.submit_jdbc_job, build_jdbc_application_arguments, hp]

/-- Witness for the amended C5 at the `jdbc-invalid-extra-conn-prefix`
fixture with the full configuration. -/
theorem conn_prefix_checked_at_submission_witness :
    ∃ h : SparkJDBCHook,
      SparkJDBCHook.init jdbcInvalidPrefixConnection fullConfig = Except.ok h ∧
        h.submit_jdbc_job = Except.error InvalidConfiguration.connPrefixContainsHash :=
  conn_prefix_checked_at_submission jdbcInvalidPrefixConnection fullConfig
    (by decide) (by decide) (by decide)

/-- Erase the three partitioning fields of a configuration. -/
def clearPartitioning (cfg : SubmissionConfig) : SubmissionConfig :=
  { cfg with partition_column := none, lower_bound := none, upper_bound := none }

/-- C6: whenever at least one of partition_column, lower_bound, upper_bound is
absent, the argument builder behaves exactly as if all three were absent — the
three partitioning flags are omitted entirely (no flag is emitted with an
empty value, and no error is raised); they appear only when all three fields
are present. -/
theorem partition_flags_all_or_nothing (conn : ResolvedJdbcConnection)
    (cfg : SubmissionConfig)
    (h : cfg.partition_column = none ∨ cfg.lower_bound = none ∨
      cfg.upper_bound = none) :
    build_jdbc_application_arguments conn cfg =
      build_jdbc_application_arguments conn (clearPartitioning cfg) := by
  rcases hpc : cfg.partition_column with _ | pc <;>
    rcases hlb : cfg.lower_bound with _ | lb <;>
      rcases hub : cfg.upper_bound with _ | ub <;>
        simp_all [build_jdbc_application_arguments, clearPartitioning]

/-- Witness for C6 at the `_invalid_config` fixture of `test_spark_jdbc.py`
(partition_column and upper_bound set, lower_bound absent): building with it
gives the same tokens as building with no partitioning fields at all. -/
theorem partition_flags_all_or_nothing_witness :
    build_jdbc_application_arguments
        { url := "localhost:5432"
          schema := "default"
          connPrefix := "jdbc:postgresql://"
          user := "user"
          password := "supersecret" }
        { fullConfig with lower_bound := none } =
      build_jdbc_application_arguments
        { url := "localhost:5432"
          schema := "default"
          connPrefix := "jdbc:postgresql://"
          user := "user"
          password := "supersecret" }
        (clearPartitioning { fullConfig with lower_bound := none }) :=
  partition_flags_all_or_nothing _ _ (Or.inr (Or.inl rfl))

/-- C7: the argument builder is a deterministic function of its two inputs —
in this embedding it is a pure function, so two calls on identical inputs
yield identical token sequences. -/
theorem build_jdbc_application_arguments_deterministic
    (conn conn2 : ResolvedJdbcConnection) (cfg cfg2 : SubmissionConfig)
    (hc : conn = conn2) (hk : cfg = cfg2) :
    build_jdbc_application_arguments conn cfg =
      build_jdbc_application_arguments conn2 cfg2 := by
  rw [hc, hk]

/-- Witness for C7 at the default connection and full configuration. -/
theorem build_jdbc_application_arguments_deterministic_witness :
    build_jdbc_application_arguments
        { url := "localhost:5432"
          schema := "default"
          connPrefix := "jdbc:postgresql://"
          user := "user"
          password := "supersecret" }
        fullConfig =
      build_jdbc_application_arguments
        { url := "localhost:5432"
          schema := "default"
          connPrefix := "jdbc:postgresql://"
          user := "user"
          password := "supersecret" }
        fullConfig :=
  build_jdbc_application_arguments_deterministic _ _ _ _ rfl rfl

/-- The outcome of a Vertex AI hook call as the operators observe it:
success, the vendor SDK's `NotFound`, or any other vendor error. -/
inductive VertexAIError where
  | notFound
  | other (msg : String)
  deriving DecidableEq, Repr

/-- The characters of `l` strictly before the last occurrence of `sep`, or
`none` when `sep` does not occur: the first component of Python
`rpartition(sep)` in the found case. -/
def rpartitionBefore (sep : Char) : List Char → Option (List Char)
  | [] => none
  | c :: cs =>
    match rpartitionBefore sep cs with
    | some p => some (c :: p)
    | none => if c = sep then some [] else none

/-- `model_service.py` lines 97 and 176:
`model_id.rpartition("@")[0] if "@" in model_id else model_id` — strip an
`@`-suffixed version qualifier, keeping the part before the last `@`. -/
def normalizeModelId (s : String) : String :=
  match rpartitionBefore '@' s.data with
  | some p => String.mk p
  | none => s

/-- The fields of `DeleteModelOperator` the `execute` body reads. -/
structure DeleteModelOperator where
  region : String
  project_id : String
  model_id : String
  deriving DecidableEq, Repr

/-- `DeleteModelOperator.execute` (`model_service.py` lines 92-111): strip the
version qualifier from `model_id`, call the hook (here `hookDelete`, standing
for `delete_model` plus `wait_for_operation`), catch `NotFound` and return
normally, and let every other error propagate. -/
def DeleteModelOperator.execute (op : DeleteModelOperator)
    (hookDelete : String → Except VertexAIError Unit) :
    Except VertexAIError Unit :=
  let mid := normalizeModelId op.model_id
  match hookDelete mid with
  | Except.ok _ => Except.ok ()
  | Except.error VertexAIError.notFound => Except.ok ()
  | Except.error e => Except.error e

/-- The fields of `GetModelOperator` the `execute` body reads. -/
structure GetModelOperator where
  region : String
  project_id : String
  model_id : String
  deriving DecidableEq, Repr

/-- `GetModelOperator.execute` (`model_service.py` lines 171-193): strip the
version qualifier from `model_id`, call `get_model` (here `hookGet`, `α`
standing for the vendor Model payload), return its serialized result, catch
`NotFound` and return nothing, and let every other error propagate. -/
def GetModelOperator.execute {α : Type} (op : GetModelOperator)
    (hookGet : String → Except VertexAIError α) :
    Except VertexAIError (Option α) :=
  let mid := normalizeModelId op.model_id
  match hookGet mid with
  | Except.ok m => Except.ok (some m)
  | Except.error VertexAIError.notFound => Except.ok none
  | Except.error e => Except.error e

/-- The fields of `DeleteModelVersionOperator` the `execute` body reads. -/
structure DeleteModelVersionOperator where
  region : String
  project_id : String
  model_id : String
  deriving DecidableEq, Repr

/-- `DeleteModelVersionOperator.execute` (`model_service.py` lines 823-842):
call `delete_model_version` on `model_id` unchanged (no qualifier stripping),
catch `NotFound` and return normally, and let every other error propagate. -/
def DeleteModelVersionOperator.execute (op : DeleteModelVersionOperator)
    (hookDelete : String → Except VertexAIError Unit) :
    Except VertexAIError Unit :=
  match hookDelete op.model_id with
  | Except.ok _ => Except.ok ()
  | Except.error VertexAIError.notFound => Except.ok ()
  | Except.error e => Except.error e

/-- C8: for both delete operators, a `NotFound` from the hook is caught and
the operator returns normally, while any other hook error propagates
unchanged to the caller. -/
theorem delete_operators_catch_notfound (op : DeleteModelOperator)
    (opv : DeleteModelVersionOperator)
    (dm dmv : String → Except VertexAIError Unit) (msg : String) :
    (dm (normalizeModelId op.model_id) = Except.error VertexAIError.notFound →
        op.execute dm = Except.ok ()) ∧
    (dm (normalizeModelId op.model_id) = Except.error (VertexAIError.other msg) →
        op.execute dm = Except.error (VertexAIError.other msg)) ∧
    (dmv opv.model_id = Except.error VertexAIError.notFound →
        opv.execute dmv = Except.ok ()) ∧
    (dmv opv.model_id = Except.error (VertexAIError.other msg) →
        opv.execute dmv = Except.error (VertexAIError.other msg)) := by
  refine ⟨fun h => ?_, fun h => ?_, fun h => ?_, fun h => ?_⟩ <;>
    simp [DeleteModelOperator.execute, DeleteModelVersionOperator.execute, h]

/-- Witness for C8: a hook answering `NotFound` makes the delete succeed, a
hook answering another error propagates it. -/
theorem delete_operators_catch_notfound_witness :
    DeleteModelOperator.execute
        { region := "us-central1", project_id := "proj", model_id := "m" }
        (fun _ => Except.error VertexAIError.notFound) = Except.ok () ∧
      DeleteModelVersionOperator.execute
        { region := "us-central1", project_id := "proj", model_id := "m" }
        (fun _ => Except.error (VertexAIError.other "boom")) =
        Except.error (VertexAIError.other "boom") :=
  ⟨(delete_operators_catch_notfound
      { region := "us-central1", project_id := "proj", model_id := "m" }
      { region := "us-central1", project_id := "proj", model_id := "m" }
      (fun _ => Except.error VertexAIError.notFound)
      (fun _ => Except.error (VertexAIError.other "boom")) "boom").1 rfl,
   (delete_operators_catch_notfound
      { region := "us-central1", project_id := "proj", model_id := "m" }
      { region := "us-central1", project_id := "proj", model_id := "m" }
      (fun _ => Except.error VertexAIError.notFound)
      (fun _ => Except.error (VertexAIError.other "boom")) "boom").2.2.2 rfl⟩

/-- `rpartitionBefore` returns `none` exactly when the separator is absent. -/
theorem rpartitionBefore_eq_none_iff (sep : Char) (l : List Char) :
    rpartitionBefore sep l = none ↔ sep ∉ l := by
  induction l with
  | nil => simp [rpartitionBefore]
  | cons c cs ih =>
    cases hcs : rpartitionBefore sep cs with
    | some p =>
      have : sep ∈ cs := by
        by_contra hmem
        exact absurd (ih.mpr hmem) (by simp [hcs])
      simp [rpartitionBefore, hcs, this]
    | none =>
      have hnot : sep ∉ cs := ih.mp hcs
      by_cases hc : c = sep <;> simp_all [rpartitionBefore, hcs, eq_comm]

/-- When `rpartitionBefore` finds the separator, the input splits as the
returned part, the separator, and a tail free of the separator: the returned
part is everything before the *last* occurrence. -/
theorem rpartitionBefore_spec (sep : Char) (l p : List Char)
    (h : rpartitionBefore sep l = some p) :
    ∃ t, l = p ++ sep :: t ∧ sep ∉ t := by
  induction l generalizing p with
  | nil => simp [rpartitionBefore] at h
  | cons c cs ih =>
    cases hcs : rpartitionBefore sep cs with
    | some q =>
      rw [rpartitionBefore, hcs] at h
      simp only [Option.some.injEq] at h
      obtain ⟨t, ht, hmem⟩ := ih q hcs
      refine ⟨t, ?_, hmem⟩
      rw [ht, ← h]
      simp
    | none =>
      rw [rpartitionBefore, hcs] at h
      by_cases hc : c = sep
      · refine ⟨cs, ?_, (rpartitionBefore_eq_none_iff sep cs).mp hcs⟩
        simp [hc] at h
        simp [hc, ← h]
      · simp [hc] at h

/-- C9: both `DeleteModelOperator.execute` and `GetModelOperator.execute` hand
the hook `normalizeModelId model_id`; when `model_id` has no `@` this is the
id unchanged, and when it has one the id splits as the normalized part, an
`@`, and an `@`-free version suffix — i.e. the part before the last `@`. -/
theorem execute_strips_version_qualifier (s : String) :
    (DeleteModelOperator.execute { region := "r", project_id := "p", model_id := s }
        (fun mid => Except.error (VertexAIError.other mid)) =
      Except.error (VertexAIError.other (normalizeModelId s))) ∧
    (GetModelOperator.execute { region := "r", project_id := "p", model_id := s }
        (fun mid => Except.ok mid) =
      Except.ok (some (normalizeModelId s))) ∧
    ('@' ∉ s.data → normalizeModelId s = s) ∧
    ('@' ∈ s.data →
      ∃ t, s.data = (normalizeModelId s).data ++ '@' :: t ∧ '@' ∉ t) := by
  refine ⟨rfl, rfl, fun h => ?_, fun h => ?_⟩
  · rw [normalizeModelId, (rpartitionBefore_eq_none_iff '@' s.data).mpr h]
  · cases hq : rpartitionBefore '@' s.data with
    | none => exact absurd h (by rw [← rpartitionBefore_eq_none_iff '@' s.data, hq])
    | some p =>
      obtain ⟨t, ht, hmem⟩ := rpartitionBefore_spec '@' s.data p hq
      have hns : normalizeModelId s = String.mk p := by
        rw [normalizeModelId, hq]
      refine ⟨t, ?_, hmem⟩
      rw [hns]
      exact ht

/-- Witness for C9 at the versioned id `models/m@v1`: the hook sees the base
model `models/m` in both operators. -/
theorem execute_strips_version_qualifier_witness :
    DeleteModelOperator.execute
        { region := "r", project_id := "p", model_id := "models/m@v1" }
        (fun mid => Except.error (VertexAIError.other mid)) =
      Except.error (VertexAIError.other "models/m") ∧
    GetModelOperator.execute
        { region := "r", project_id := "p", model_id := "models/m@v1" }
        (fun mid => Except.ok mid) =
      Except.ok (some "models/m") := by
  have h := execute_strips_version_qualifier "models/m@v1"
  have hnorm : normalizeModelId "models/m@v1" = "models/m" := by decide
  exact ⟨by rw [h.1, hnorm], by rw [h.2.1, hnorm]⟩

/-- Modelled from the spec: `BaseAwsLink.get_aws_domain`, the AWS console
domain for each partition; the excerpt pins only the `aws` partition through
`test_glue.py` (`get_aws_domain("aws")` feeding the expected URL
`https://console.aws.amazon.com/...`), with the standard commercial, China
and GovCloud console domains. -/
def get_aws_domain (partition : String) : Option String :=
  if partition = "aws" then some "aws.amazon.com"
  else if partition = "aws-cn" then some "amazonaws.cn"
  else if partition = "aws-us-gov" then some "amazonaws-us-gov.com"
  else none

/-- Modelled from the spec: the Glue job-run details link is a "pure string
template" (spec section 2); its shape is pinned by the expected URL of
`test_glue.py`: the console base for the partition's domain, then
`/gluestudio/home` with the region query and the job/run fragment. -/
def glueJobRunDetailsLinkFormat (aws_domain region_name job_name job_run_id : String) :
    String :=
  "https://console." ++ aws_domain ++ "/gluestudio/home?region=" ++ region_name
    ++ "#/job/" ++ job_name ++ "/run/" ++ job_run_id

/-- C10: for every region, partition, job name and run id, the link builder
produces exactly the console-domain URL with the region query and the
job/run fragment; at partition `aws`, region `ap-southeast-2`, job
`test_job_name`, run `11111` this is the URL asserted by `test_glue.py`. -/
theorem glue_job_run_details_link (region partition job_name job_run_id : String) :
    Option.map (fun d => glueJobRunDetailsLinkFormat d region job_name job_run_id)
        (get_aws_domain partition) =
      Option.map
        (fun d => "https://console." ++ d ++ "/gluestudio/home?region=" ++ region
          ++ "#/job/" ++ job_name ++ "/run/" ++ job_run_id)
        (get_aws_domain partition) ∧
    get_aws_domain "aws" = some "aws.amazon.com" ∧
    Option.map
        (fun d => glueJobRunDetailsLinkFormat d "ap-southeast-2" "test_job_name" "11111")
        (get_aws_domain "aws") =
      some "https://console.aws.amazon.com/gluestudio/home?region=ap-southeast-2#/job/test_job_name/run/11111" :=
  ⟨rfl, rfl, by rfl⟩

end AirflowSpec
